import Mathlib

/-!
# Verification of the Detritus two-channel relay firmware core

Shallow embedding of the mode / relay / gesture / broker logic of
`src/Detritus.ino` (a two-channel ESP8285 relay module controlled by wall
switches and MQTT), together with theorems checking the natural-language
specification against it.

Conventions of the embedding:
* C `boolean` globals become `Bool` fields of an explicit state record.
* `millis()` timestamps become `Nat` (milliseconds); the unsigned
  subtraction `millis() - t` becomes `Nat` truncated subtraction, which
  agrees with the C value whenever the clock has not wrapped.
* Calls to `mqttClient.publish(topic, msg, true)` are modelled by returning
  the list of `(topic, payload)` pairs emitted by the operation; an empty
  list means nothing was published.
* Side effects on GPIO pins (`digitalWrite`) have no observable state in
  the claims and are dropped; the shadow globals (`l1State`, ...) that the
  code keeps in sync with the pins are kept.
-/

namespace Detritus

/-- A published MQTT message: (topic, payload).  All publishes in the code
are retained (`true` last argument), so the flag is not modelled. -/
abbrev Pub := String × String

/-- The firmware's global state relevant to the GPIO / MQTT / mode logic.
Field names follow the C globals in `Detritus.ino`. -/
structure DState where
  swapRelays : Bool
  invertSwitch : Bool
  respectSwitchState : Bool
  s1State : Bool
  s2State : Bool
  l1State : Bool
  l2State : Bool
  offline : Bool
  mqttConnected : Bool
  wifiManagerSetupRunning : Bool
  otaRunning : Bool
  restart : Bool
  mqttOutTopic1 : String
  mqttInTopic1 : String
  mqttOutTopic2 : String
  mqttInTopic2 : String
deriving DecidableEq, Repr

/-- `mqttCommunicate(boolean l1Report)`: build the 1–2 character status
payload and publish it retained, provided the module is online and the MQTT
client is connected; otherwise publish nothing.  `mqttMsg[1]` being the NUL
byte in the C code corresponds to the one-character string here. -/
def mqttCommunicate (st : DState) (l1Report : Bool) : List Pub :=
  if !st.offline && st.mqttConnected then
    if l1Report then
      let c0 := if st.l1State then '1' else '0'
      let dot := if st.swapRelays then
          (if st.invertSwitch then !st.s2State else st.s2State)
        else
          (if st.invertSwitch then !st.s1State else st.s1State)
      [(st.mqttOutTopic1, if dot then String.mk [c0, '.'] else String.mk [c0])]
    else
      let c0 := if st.l2State then '1' else '0'
      let dot := if st.swapRelays then
          (if st.invertSwitch then !st.s1State else st.s1State)
        else
          (if st.invertSwitch then !st.s2State else st.s2State)
      [(st.mqttOutTopic2, if dot then String.mk [c0, '.'] else String.mk [c0])]
  else []

/-- `enableL1()`: energize relay 1, record it, publish channel-1 status. -/
def enableL1 (st : DState) : DState × List Pub :=
  let st1 := { st with l1State := true }
  (st1, mqttCommunicate st1 true)

/-- `enableL2()`: energize relay 2, record it, publish channel-2 status. -/
def enableL2 (st : DState) : DState × List Pub :=
  let st1 := { st with l2State := true }
  (st1, mqttCommunicate st1 false)

/-- `disableL1()`: de-energize relay 1, record it, publish channel-1 status. -/
def disableL1 (st : DState) : DState × List Pub :=
  let st1 := { st with l1State := false }
  (st1, mqttCommunicate st1 true)

/-- `disableL2()`: de-energize relay 2, record it, publish channel-2 status. -/
def disableL2 (st : DState) : DState × List Pub :=
  let st1 := { st with l2State := false }
  (st1, mqttCommunicate st1 false)

/-- The `if (s1Changed) { ... }` block of `gpioLoop()` (lines 256–302).
At this point in `gpioLoop` the code has already stored the switch's *new*
debounced level in `s1State`, so `st.s1State` is the post-edge level. -/
def gpioS1Edge (st : DState) : DState × List Pub :=
  if st.respectSwitchState then
    if st.swapRelays then
      if st.invertSwitch then
        if st.s1State then disableL2 st else enableL2 st
      else
        if st.s1State then enableL2 st else disableL2 st
    else
      if st.invertSwitch then
        if st.s1State then disableL1 st else enableL1 st
      else
        if st.s1State then enableL1 st else disableL1 st
  else
    if st.swapRelays then
      if st.l2State then disableL2 st else enableL2 st
    else
      if st.l1State then disableL1 st else enableL1 st

/-- The `if (s2Changed) { ... }` block of `gpioLoop()` (lines 304–350);
`st.s2State` is the post-edge level. -/
def gpioS2Edge (st : DState) : DState × List Pub :=
  if st.respectSwitchState then
    if st.swapRelays then
      if st.invertSwitch then
        if st.s2State then disableL1 st else enableL1 st
      else
        if st.s2State then enableL1 st else disableL1 st
    else
      if st.invertSwitch then
        if st.s2State then disableL2 st else enableL2 st
      else
        if st.s2State then enableL2 st else disableL2 st
  else
    if st.swapRelays then
      if st.l1State then disableL1 st else enableL1 st
    else
      if st.l2State then disableL2 st else enableL2 st

theorem enableL1_fst (st : DState) : (enableL1 st).1 = { st with l1State := true } := rfl

theorem enableL2_fst (st : DState) : (enableL2 st).1 = { st with l2State := true } := rfl

theorem disableL1_fst (st : DState) : (disableL1 st).1 = { st with l1State := false } := rfl

theorem disableL2_fst (st : DState) : (disableL2 st).1 = { st with l2State := false } := rfl

/-- C1: for every policy combination and every debounced edge on either
switch, the relay mapped to that switch (crossed when `swapRelays` is set)
ends up mirroring the switch's new level when `respectSwitchState` is on
(with `invertSwitch` flipping the mapping), and is toggled from its prior
energized state when `respectSwitchState` is off; the other relay is
untouched. -/
theorem relay_edge_decision (st : DState) :
    ((if st.swapRelays then ((gpioS1Edge st).1).l2State else ((gpioS1Edge st).1).l1State)
      = (if st.respectSwitchState
          then (if st.invertSwitch then !st.s1State else st.s1State)
          else !(if st.swapRelays then st.l2State else st.l1State)))
  ∧ ((if st.swapRelays then ((gpioS1Edge st).1).l1State else ((gpioS1Edge st).1).l2State)
      = (if st.swapRelays then st.l1State else st.l2State))
  ∧ ((if st.swapRelays then ((gpioS2Edge st).1).l1State else ((gpioS2Edge st).1).l2State)
      = (if st.respectSwitchState
          then (if st.invertSwitch then !st.s2State else st.s2State)
          else !(if st.swapRelays then st.l1State else st.l2State)))
  ∧ ((if st.swapRelays then ((gpioS2Edge st).1).l2State else ((gpioS2Edge st).1).l1State)
      = (if st.swapRelays then st.l2State else st.l1State)) := by
  obtain ⟨sw, inv, rsp, s1, s2, l1, l2, off, conn, wmr, ota, rst, o1, i1, o2, i2⟩ := st
  cases sw <;> cases inv <;> cases rsp <;> cases s1 <;> cases s2 <;> cases l1 <;> cases l2 <;>
    simp [gpioS1Edge, gpioS2Edge, enableL1, enableL2, disableL1, disableL2]

/-! ## Setup-gesture detector (lines 352–362 of `gpioLoop`) -/

/-- `MANUAL_SETUP_MAX_DELAY_MS` -/
def MANUAL_SETUP_MAX_DELAY_MS : Nat := 500

/-- `MANUAL_SETUP_COUNTER` -/
def MANUAL_SETUP_COUNTER : Nat := 5

/-- The gesture-detector globals, plus an observer counting how many times
`startWifiManager(true)` was requested by the gesture. -/
structure GestureState where
  manualSetupActivatorTime : Nat
  manualSetupModeCounter : Nat
  portalRequests : Nat
deriving DecidableEq, Repr

/-- The `if (s1Changed || s2Changed) { ... }` block of `gpioLoop()`
(lines 352–362), run once per debounced edge on either switch with
`now = millis()`:

```
unsigned long manualSetupActivatorDelay = millis() - manualSetupActivatorTime;
if (manualSetupActivatorDelay < MANUAL_SETUP_MAX_DELAY_MS){
  if (++manualSetupModeCounter == MANUAL_SETUP_COUNTER) {
    startWifiManager(true);
  }
} else {
  manualSetupModeCounter = 0;
}
manualSetupActivatorTime = millis();
```
-/
def gestureOnEdge (g : GestureState) (now : Nat) : GestureState :=
  let manualSetupActivatorDelay := now - g.manualSetupActivatorTime
  if manualSetupActivatorDelay < MANUAL_SETUP_MAX_DELAY_MS then
    let c := g.manualSetupModeCounter + 1
    if c = MANUAL_SETUP_COUNTER then
      { manualSetupActivatorTime := now, manualSetupModeCounter := c,
        portalRequests := g.portalRequests + 1 }
    else
      { manualSetupActivatorTime := now, manualSetupModeCounter := c,
        portalRequests := g.portalRequests }
  else
    { manualSetupActivatorTime := now, manualSetupModeCounter := 0,
      portalRequests := g.portalRequests }

/-- Run the gesture detector over a list of edge timestamps. -/
def gestureRun (g : GestureState) (edges : List Nat) : GestureState :=
  edges.foldl gestureOnEdge g

/-- The detector's state at boot: `manualSetupModeCounter = 0` (set in
`setup()`), `manualSetupActivatorTime = 0` (zero-initialized global),
no portal requests yet. -/
def gestureInit : GestureState :=
  { manualSetupActivatorTime := 0, manualSetupModeCounter := 0, portalRequests := 0 }

/-- C2 counterexample: the code resets the counter to 0 (not 1) when the
inter-edge gap is not below 500 ms, does not clear the counter after a
trigger, and consequently five edges 100 ms apart following an idle period
(here: first edge 1000 ms after the recorded timestamp) produce zero
configuration-portal requests, not one. -/
theorem gesture_claim_counterexample :
    (gestureOnEdge gestureInit 600).manualSetupModeCounter = 0
  ∧ (gestureOnEdge
      { manualSetupActivatorTime := 900, manualSetupModeCounter := 4, portalRequests := 0 }
      1000).manualSetupModeCounter = 5
  ∧ (gestureRun gestureInit [1000, 1100, 1200, 1300, 1400]).portalRequests = 0 := by
  decide

/-- C2 amended: on each edge, a gap below 500 ms increments the counter and
requests portal entry exactly when the incremented counter equals 5 (the
counter is not reset by the trigger), while a gap of 500 ms or more resets
the counter to 0; the edge timestamp is always recorded.  Hence, from the
idle boot state, six edges 100 ms apart (the first after a long gap)
request the portal exactly once, five such edges request nothing, and five
rapid edges with one 600 ms gap request nothing. -/
theorem gesture_detector_behaviour (g : GestureState) (now : Nat) :
    ((gestureOnEdge g now).manualSetupActivatorTime = now)
  ∧ ((gestureOnEdge g now).manualSetupModeCounter
      = (if now - g.manualSetupActivatorTime < 500
         then g.manualSetupModeCounter + 1 else 0))
  ∧ ((gestureOnEdge g now).portalRequests
      = (if now - g.manualSetupActivatorTime < 500 ∧ g.manualSetupModeCounter + 1 = 5
         then g.portalRequests + 1 else g.portalRequests))
  ∧ (gestureRun gestureInit [1000, 1100, 1200, 1300, 1400, 1500]).portalRequests = 1
  ∧ (gestureRun gestureInit [1000, 1100, 1200, 1300, 1400]).portalRequests = 0
  ∧ (gestureRun gestureInit [1000, 1100, 1200, 1900, 2000, 2100]).portalRequests = 0 := by
  refine ⟨?_, ?_, ?_, by decide, by decide, by decide⟩ <;>
    · simp only [gestureOnEdge, MANUAL_SETUP_MAX_DELAY_MS, MANUAL_SETUP_COUNTER]
      repeat' split
      all_goals simp_all

/-! ## Broker connection manager (`mqttReconnect`, lines 668–687) -/

/-- The broker-connection globals, plus the client's subscription set. -/
structure BrokerState where
  connected : Bool
  mqttConnectAttempt : Nat
  mqttConnectDelay : Nat
  subscribed : List String
deriving DecidableEq, Repr

/-- The outcome of one `mqttReconnect()` call: the new state, whether a
connect was attempted, whether it succeeded (the C return value), and the
messages published (none: `mqttReconnect` only subscribes). -/
structure ReconnectResult where
  state : BrokerState
  attempted : Bool
  success : Bool
  published : List Pub
deriving DecidableEq, Repr

/-- `mqttReconnect()`: when disconnected and more than `mqttConnectDelay`
milliseconds have passed since `mqttConnectAttempt`, bump the delay by
1000 ms (capped at 60000), record the attempt time, and try to connect;
on success subscribe to both command topics and zero the delay.
`connectOk` stands for the result of the external
`mqttClient.connect(...)` call. -/
def mqttReconnect (st : BrokerState) (now : Nat) (connectOk : Bool)
    (inTopic1 inTopic2 : String) : ReconnectResult :=
  if !st.connected then
    if now - st.mqttConnectAttempt > st.mqttConnectDelay then
      let d0 := st.mqttConnectDelay + 1000
      let d := if d0 > 60000 then 60000 else d0
      let st1 := { st with mqttConnectDelay := d, mqttConnectAttempt := now }
      if connectOk then
        { state := { st1 with
                      connected := true,
                      subscribed := st1.subscribed ++ [inTopic1, inTopic2],
                      mqttConnectDelay := 0 },
          attempted := true, success := true, published := [] }
      else
        { state := st1, attempted := true, success := false, published := [] }
    else
      { state := st, attempted := false, success := false, published := [] }
  else
    { state := st, attempted := false, success := false, published := [] }

/-- Boot state of the connection manager: `mqttConnectAttempt = 0`,
`mqttConnectDelay = 0` (globals), client disconnected, nothing subscribed. -/
def brokerInit : BrokerState :=
  { connected := false, mqttConnectAttempt := 0, mqttConnectDelay := 0, subscribed := [] }

/-- Fold `mqttReconnect` over a list of `(now, connectOk)` ticks. -/
def brokerRun (st : BrokerState) (ticks : List (Nat × Bool))
    (inTopic1 inTopic2 : String) : BrokerState :=
  ticks.foldl (fun s t => (mqttReconnect s t.1 t.2 inTopic1 inTopic2).state) st

theorem mqttReconnect_delay_le (st : BrokerState) (now : Nat) (ok : Bool)
    (t1 t2 : String) (h : st.mqttConnectDelay ≤ 60000) :
    (mqttReconnect st now ok t1 t2).state.mqttConnectDelay ≤ 60000 := by
  simp only [mqttReconnect]
  repeat' split
  all_goals simp_all

theorem brokerRun_delay_le (ticks : List (Nat × Bool)) (t1 t2 : String) :
    ∀ st : BrokerState, st.mqttConnectDelay ≤ 60000 →
      (brokerRun st ticks t1 t2).mqttConnectDelay ≤ 60000 := by
  induction ticks with
  | nil => intro st h; simpa [brokerRun] using h
  | cons t ts ih =>
      intro st h
      simpa [brokerRun] using ih _ (mqttReconnect_delay_le st t.1 t.2 t1 t2 h)

/-- C3: for the broker connection manager,
(1) a connect is attempted only when disconnected and strictly more than the
current delay has elapsed since the last recorded attempt (so never before
the delay has elapsed);
(2) a failed attempt sets the delay to `min (old + 1s) 60s`, i.e. increases
it by exactly one second capped at 60 seconds;
(3) starting from the boot state, the delay never exceeds 60 seconds over
any sequence of ticks;
(4) a successful connect subscribes to both command topics and resets the
delay to 0. -/
theorem broker_backoff (st : BrokerState) (now : Nat) (ok : Bool)
    (t1 t2 : String) (ticks : List (Nat × Bool)) :
    ((mqttReconnect st now ok t1 t2).attempted = true →
        st.connected = false
        ∧ st.mqttConnectDelay < now - st.mqttConnectAttempt)
  ∧ ((mqttReconnect st now ok t1 t2).attempted = true →
      (mqttReconnect st now ok t1 t2).success = false →
        (mqttReconnect st now ok t1 t2).state.mqttConnectDelay
          = min (st.mqttConnectDelay + 1000) 60000)
  ∧ ((brokerRun brokerInit ticks t1 t2).mqttConnectDelay ≤ 60000)
  ∧ ((mqttReconnect st now ok t1 t2).success = true →
      (mqttReconnect st now ok t1 t2).state.subscribed
          = st.subscribed ++ [t1, t2]
        ∧ (mqttReconnect st now ok t1 t2).state.mqttConnectDelay = 0) := by
  refine ⟨?_, ?_, brokerRun_delay_le ticks t1 t2 brokerInit (by simp [brokerInit]), ?_⟩ <;>
    · simp only [mqttReconnect]
      repeat' split
      all_goals simp_all
      all_goals omega

/-- C3 witness: from the boot state at `now = 1`, a failing connect is an
attempt (gap 1 > delay 0) and sets the delay to `min (0 + 1000) 60000`; a
succeeding connect subscribes to both topics and zeroes the delay; a
concrete three-tick run keeps the delay within bound. -/
theorem broker_backoff_witness :
    (brokerInit.connected = false
      ∧ brokerInit.mqttConnectDelay < 1 - brokerInit.mqttConnectAttempt)
  ∧ ((mqttReconnect brokerInit 1 false "a" "b").state.mqttConnectDelay
        = min (brokerInit.mqttConnectDelay + 1000) 60000)
  ∧ ((brokerRun brokerInit [(1, false), (2000, false), (5000, true)] "a" "b").mqttConnectDelay
        ≤ 60000)
  ∧ ((mqttReconnect brokerInit 1 true "a" "b").state.subscribed
        = brokerInit.subscribed ++ ["a", "b"]
      ∧ (mqttReconnect brokerInit 1 true "a" "b").state.mqttConnectDelay = 0) :=
  ⟨(broker_backoff brokerInit 1 false "a" "b" []).1 (by decide),
   (broker_backoff brokerInit 1 false "a" "b" []).2.1 (by decide) (by decide),
   (broker_backoff brokerInit 1 false "a" "b"
      [(1, false), (2000, false), (5000, true)]).2.2.1,
   (broker_backoff brokerInit 1 true "a" "b" []).2.2.2 (by decide)⟩

/-! ## Status publisher (`mqttCommunicate`, lines 587–625) -/

/-- C4: when online and connected, the published status payload for either
channel is the relay's energized state as `'1'`/`'0'`, followed by `'.'`
exactly when the physically associated switch under the swap mapping
(switch 2 for channel 1 and switch 1 for channel 2 when `swapRelays`,
identity otherwise), with `invertSwitch` flipping the condition, is in the
logical pressed state. -/
theorem status_payload (st : DState)
    (hoff : st.offline = false) (hconn : st.mqttConnected = true) :
    mqttCommunicate st true
      = [(st.mqttOutTopic1,
          (if st.l1State then "1" else "0")
            ++ (if (if st.swapRelays
                    then (if st.invertSwitch then !st.s2State else st.s2State)
                    else (if st.invertSwitch then !st.s1State else st.s1State))
                then "." else ""))]
  ∧ mqttCommunicate st false
      = [(st.mqttOutTopic2,
          (if st.l2State then "1" else "0")
            ++ (if (if st.swapRelays
                    then (if st.invertSwitch then !st.s1State else st.s1State)
                    else (if st.invertSwitch then !st.s2State else st.s2State))
                then "." else ""))] := by
  obtain ⟨sw, inv, rsp, s1, s2, l1, l2, off, conn, wmr, ota, rst, o1, i1, o2, i2⟩ := st
  simp only at hoff hconn
  subst hoff hconn
  cases sw <;> cases inv <;> cases s1 <;> cases s2 <;> cases l1 <;> cases l2 <;>
    simp [mqttCommunicate]

/-- C4 witness: with relays energized and both switches pressed, channel 1
publishes `"1."` when `invertSwitch` is off and `"1"` when it is on. -/
theorem status_payload_witness :
    (mqttCommunicate
      { swapRelays := false, invertSwitch := false, respectSwitchState := true,
        s1State := true, s2State := true, l1State := true, l2State := true,
        offline := false, mqttConnected := true, wifiManagerSetupRunning := false,
        otaRunning := false, restart := false,
        mqttOutTopic1 := "sta1", mqttInTopic1 := "cmd1",
        mqttOutTopic2 := "sta2", mqttInTopic2 := "cmd2" } true
      = [("sta1", "1" ++ ".")])
  ∧ (mqttCommunicate
      { swapRelays := false, invertSwitch := true, respectSwitchState := true,
        s1State := true, s2State := true, l1State := true, l2State := true,
        offline := false, mqttConnected := true, wifiManagerSetupRunning := false,
        otaRunning := false, restart := false,
        mqttOutTopic1 := "sta1", mqttInTopic1 := "cmd1",
        mqttOutTopic2 := "sta2", mqttInTopic2 := "cmd2" } true
      = [("sta1", "1" ++ "")]) :=
  ⟨by simpa using (status_payload
      { swapRelays := false, invertSwitch := false, respectSwitchState := true,
        s1State := true, s2State := true, l1State := true, l2State := true,
        offline := false, mqttConnected := true, wifiManagerSetupRunning := false,
        otaRunning := false, restart := false,
        mqttOutTopic1 := "sta1", mqttInTopic1 := "cmd1",
        mqttOutTopic2 := "sta2", mqttInTopic2 := "cmd2" } rfl rfl).1,
   by simpa using (status_payload
      { swapRelays := false, invertSwitch := true, respectSwitchState := true,
        s1State := true, s2State := true, l1State := true, l2State := true,
        offline := false, mqttConnected := true, wifiManagerSetupRunning := false,
        otaRunning := false, restart := false,
        mqttOutTopic1 := "sta1", mqttInTopic1 := "cmd1",
        mqttOutTopic2 := "sta2", mqttInTopic2 := "cmd2" } rfl rfl).1⟩

/-! ## Command dispatcher (`mqttCallback`, lines 627–666) and the
mode-relevant part of `loop()` (lines 193–221) -/

/-- `CMD_ON` -/
def CMD_ON : String := "1"

/-- `CMD_OFF` -/
def CMD_OFF : String := "0"

/-- `CMD_SETUP` -/
def CMD_SETUP : String := "set"

/-- `CMD_OTA` -/
def CMD_OTA : String := "ota"

/-- `CMD_RESET` -/
def CMD_RESET : String := "rst"

/-- The effective command string built at the top of `mqttCallback`:
`strncpy` into a 10-byte buffer copies at most `min(length, 9)` bytes,
stopping at (and zero-filling from) any NUL byte, and the result is
NUL-terminated, so the `String cmd` seen by the matching code is the
payload truncated to 9 characters and cut at the first NUL. -/
def cTruncate (payload : String) : String :=
  String.mk ((payload.toList.take 9).takeWhile (fun c => c != Char.ofNat 0))

/-- Character-list core of Arduino `String::startsWith`. -/
def charsStartWith : List Char → List Char → Bool
  | _, [] => true
  | [], _ :: _ => false
  | c :: cs, p :: ps => c = p && charsStartWith cs ps

/-- Arduino `String::startsWith(prefix)`: true when `pre` is an initial
segment of `s`. -/
def strStartsWith (s pre : String) : Bool :=
  charsStartWith s.toList pre.toList

/-- `startWifiManager(true)` (on-demand entry into the configuration
portal): returns immediately when the portal is already running; otherwise
starts the non-blocking config portal, whose AP callback
`wifiManagerSetupStarted` sets `wifiManagerSetupRunning`. -/
def startWifiManager (st : DState) : DState :=
  if st.wifiManagerSetupRunning then st
  else { st with wifiManagerSetupRunning := true }

/-- The topic-independent part of `mqttCallback`: the three independent
prefix matches against `set` / `rst` / `ota` (lines 635–648). -/
def modeCommands (st : DState) (cmd : String) : DState :=
  let st1 := if strStartsWith cmd CMD_SETUP then startWifiManager st else st
  let st2 := if strStartsWith cmd CMD_RESET then { st1 with restart := true } else st1
  if strStartsWith cmd CMD_OTA then { st2 with otaRunning := true } else st2

/-- `mqttCallback(topic, payload, length)`: prefix-match the truncated
payload independently against `set` / `rst` / `ota`, then compare the
topic by exact equality (`strcmp`) first against channel 1's command topic
and, only if that fails, against channel 2's, and apply `1` / `0`
prefix-matches to the matching channel alone. -/
def mqttCallback (st : DState) (topic payload : String) : DState × List Pub :=
  let cmd := cTruncate payload
  let st3 := modeCommands st cmd
  if topic = st3.mqttInTopic1 then
    let r1 := if strStartsWith cmd CMD_ON then enableL1 st3 else (st3, [])
    let r2 := if strStartsWith cmd CMD_OFF then disableL1 r1.1 else (r1.1, [])
    (r2.1, r1.2 ++ r2.2)
  else if topic = st3.mqttInTopic2 then
    let r1 := if strStartsWith cmd CMD_ON then enableL2 st3 else (st3, [])
    let r2 := if strStartsWith cmd CMD_OFF then disableL2 r1.1 else (r1.1, [])
    (r2.1, r1.2 ++ r2.2)
  else (st3, [])

/-- External inputs arriving at one iteration of `loop()`. -/
inductive Ev where
  | button : Ev
  | wifiStatus : Bool → Ev
  | mqttConn : Bool → Ev
  | mqttMsg : String → String → Ev
deriving DecidableEq, Repr

/-- One pass of `loop()` reacting to an external input.  When `otaRunning`
the loop only calls `ArduinoOTA.handle()` and checks the OTA timeout —
`gpioLoop`, `wifimanagerLoop` and `mqttLoop` are all skipped, so button
presses, WiFi status changes and inbound MQTT messages have no effect on
this state.  Otherwise: a pressed button calls `startWifiManager(true)`
(`gpioLoop` line 226), a WiFi status report sets `offline`
(`wifimanagerLoop` lines 376–390), `mqttLoop` updates the client connection
(only reached when `!offline`), and an inbound message is dispatched by
`mqttClient.loop()` to `mqttCallback` (only when online with a connected
client). -/
def loopStep (st : DState) (ev : Ev) : DState × List Pub :=
  if st.otaRunning then (st, [])
  else
    match ev with
    | .button => (startWifiManager st, [])
    | .wifiStatus c => ({ st with offline := !c }, [])
    | .mqttConn c => if st.offline then (st, []) else ({ st with mqttConnected := c }, [])
    | .mqttMsg topic payload =>
        if !st.offline && st.mqttConnected then mqttCallback st topic payload
        else (st, [])

/-- Run `loop()` over a sequence of external inputs, keeping the state. -/
def runEvents (st : DState) (evs : List Ev) : DState :=
  evs.foldl (fun s e => (loopStep s e).1) st

/-- The global state after `setup()` with both switches released and the
default (compile-time) topic configuration. -/
def initState : DState where
  swapRelays := false
  invertSwitch := false
  respectSwitchState := true
  s1State := false
  s2State := false
  l1State := false
  l2State := false
  offline := true
  mqttConnected := false
  wifiManagerSetupRunning := false
  otaRunning := false
  restart := false
  mqttOutTopic1 := "ibnhouse/light/kitchen/sta1"
  mqttInTopic1 := "ibnhouse/light/kitchen/cmd1"
  mqttOutTopic2 := "ibnhouse/light/kitchen/sta2"
  mqttInTopic2 := "ibnhouse/light/kitchen/cmd2"

/-- A state with WiFi up and the MQTT client connected, used to
instantiate theorems on concrete inputs. -/
def onlineState : DState :=
  { initState with offline := false, mqttConnected := true }

theorem modeCommands_restart (st : DState) (cmd : String) :
    (modeCommands st cmd).restart = (st.restart || strStartsWith cmd CMD_RESET) := by
  simp only [modeCommands, startWifiManager]
  repeat' split
  all_goals simp_all

theorem modeCommands_otaRunning (st : DState) (cmd : String) :
    (modeCommands st cmd).otaRunning = (st.otaRunning || strStartsWith cmd CMD_OTA) := by
  simp only [modeCommands, startWifiManager]
  repeat' split
  all_goals simp_all

theorem modeCommands_wifiManagerSetupRunning (st : DState) (cmd : String) :
    (modeCommands st cmd).wifiManagerSetupRunning
      = (st.wifiManagerSetupRunning || strStartsWith cmd CMD_SETUP) := by
  simp only [modeCommands, startWifiManager]
  repeat' split
  all_goals simp_all

theorem modeCommands_preserved (st : DState) (cmd : String) :
    (modeCommands st cmd).l1State = st.l1State
  ∧ (modeCommands st cmd).l2State = st.l2State
  ∧ (modeCommands st cmd).s1State = st.s1State
  ∧ (modeCommands st cmd).s2State = st.s2State
  ∧ (modeCommands st cmd).swapRelays = st.swapRelays
  ∧ (modeCommands st cmd).invertSwitch = st.invertSwitch
  ∧ (modeCommands st cmd).offline = st.offline
  ∧ (modeCommands st cmd).mqttConnected = st.mqttConnected
  ∧ (modeCommands st cmd).mqttInTopic1 = st.mqttInTopic1
  ∧ (modeCommands st cmd).mqttInTopic2 = st.mqttInTopic2
  ∧ (modeCommands st cmd).mqttOutTopic1 = st.mqttOutTopic1
  ∧ (modeCommands st cmd).mqttOutTopic2 = st.mqttOutTopic2 := by
  simp only [modeCommands, startWifiManager]
  repeat' split
  all_goals simp

theorem mqttCallback_restart (st : DState) (topic payload : String) :
    ((mqttCallback st topic payload).1).restart
      = (st.restart || strStartsWith (cTruncate payload) CMD_RESET) := by
  simp only [mqttCallback]
  repeat' split
  all_goals simp [enableL1_fst, disableL1_fst, enableL2_fst, disableL2_fst,
    modeCommands_restart]

theorem mqttCallback_otaRunning (st : DState) (topic payload : String) :
    ((mqttCallback st topic payload).1).otaRunning
      = (st.otaRunning || strStartsWith (cTruncate payload) CMD_OTA) := by
  simp only [mqttCallback]
  repeat' split
  all_goals simp [enableL1_fst, disableL1_fst, enableL2_fst, disableL2_fst,
    modeCommands_otaRunning]

theorem mqttCallback_wifiManagerSetupRunning (st : DState) (topic payload : String) :
    ((mqttCallback st topic payload).1).wifiManagerSetupRunning
      = (st.wifiManagerSetupRunning || strStartsWith (cTruncate payload) CMD_SETUP) := by
  simp only [mqttCallback]
  repeat' split
  all_goals simp [enableL1_fst, disableL1_fst, enableL2_fst, disableL2_fst,
    modeCommands_wifiManagerSetupRunning]

/-- C5 counterexample: from the boot state, connect WiFi and the MQTT
client, receive `"set"` (the portal starts, `wifiManagerSetupRunning`
becomes true and is never cleared before restart), then receive `"ota"`:
`otaRunning` is set while the portal indicator is still set, so both the
configuration-portal and update indicators are active simultaneously in a
reachable state. -/
theorem mode_overlap_counterexample :
    (runEvents initState [Ev.wifiStatus true, Ev.mqttConn true,
        Ev.mqttMsg "ibnhouse/light/kitchen/cmd1" "set",
        Ev.mqttMsg "ibnhouse/light/kitchen/cmd1" "ota"]).wifiManagerSetupRunning = true
  ∧ (runEvents initState [Ev.wifiStatus true, Ev.mqttConn true,
        Ev.mqttMsg "ibnhouse/light/kitchen/cmd1" "set",
        Ev.mqttMsg "ibnhouse/light/kitchen/cmd1" "ota"]).otaRunning = true := by
  decide

/-- C5 amended: while `otaRunning` is set the loop services nothing, so
no input (button, WiFi change, message) can start the portal from update
mode; and a request to enter the portal while it is already running is a
no-op.  However (see the counterexample) an `"ota"` command received while
the portal runs sets `otaRunning` without clearing
`wifiManagerSetupRunning`, so the two indicators are not exclusive. -/
theorem mode_entry_guards (st : DState) (ev : Ev) :
    (st.otaRunning = true → loopStep st ev = (st, []))
  ∧ (st.wifiManagerSetupRunning = true → startWifiManager st = st) := by
  constructor
  · intro h
    simp [loopStep, h]
  · intro h
    simp [startWifiManager, h]

/-- C5 witness: the guards at concrete states. -/
theorem mode_entry_guards_witness :
    loopStep { initState with otaRunning := true } Ev.button
        = ({ initState with otaRunning := true }, [])
  ∧ startWifiManager { initState with wifiManagerSetupRunning := true }
        = { initState with wifiManagerSetupRunning := true } :=
  ⟨(mode_entry_guards { initState with otaRunning := true } Ev.button).1 rfl,
   (mode_entry_guards { initState with wifiManagerSetupRunning := true } Ev.button).2 rfl⟩

/-- C6 counterexample: reach update mode (`"ota"` while online and
connected), then receive `"rst"`: the restart flag stays false, because in
update mode the loop never calls `mqttClient.loop()` and the message is
never dispatched. -/
theorem reset_in_update_counterexample :
    (runEvents initState [Ev.wifiStatus true, Ev.mqttConn true,
        Ev.mqttMsg "ibnhouse/light/kitchen/cmd1" "ota"]).otaRunning = true
  ∧ (runEvents initState [Ev.wifiStatus true, Ev.mqttConn true,
        Ev.mqttMsg "ibnhouse/light/kitchen/cmd1" "ota",
        Ev.mqttMsg "ibnhouse/light/kitchen/cmd1" "rst"]).restart = false := by
  decide

/-- C6 amended: an inbound payload with prefix `"rst"` on any topic sets
the restart flag, provided the module is in normal or configuration-portal
mode (i.e. not in update mode) with WiFi up and the client connected;
while in update mode inbound messages are not serviced at all, so the
reset command has no effect there. -/
theorem reset_command (st : DState) (topic payload : String) :
    (st.otaRunning = false → st.offline = false → st.mqttConnected = true →
      strStartsWith (cTruncate payload) CMD_RESET = true →
        ((loopStep st (Ev.mqttMsg topic payload)).1).restart = true)
  ∧ (st.otaRunning = true → loopStep st (Ev.mqttMsg topic payload) = (st, [])) := by
  constructor
  · intro hota hoff hconn hrst
    simp [loopStep, hota, hoff, hconn, mqttCallback_restart, hrst]
  · intro h
    simp [loopStep, h]

/-- C6 witness: `"rst"` at a concrete online state sets the flag; at a
concrete update-mode state the message is dropped. -/
theorem reset_command_witness :
    ((loopStep onlineState (Ev.mqttMsg "t" "rst")).1).restart = true
  ∧ loopStep { initState with otaRunning := true } (Ev.mqttMsg "t" "rst")
      = ({ initState with otaRunning := true }, []) :=
  ⟨(reset_command onlineState "t" "rst").1 rfl rfl rfl (by decide),
   (reset_command { initState with otaRunning := true } "t" "rst").2 rfl⟩

/-- C7: an inbound on/off command on a channel's command topic
unconditionally sets that channel's relay state — for any prior relay
state and any policy flags — and publishes exactly one status message;
repeating the same command leaves the relay in the same state and
publishes the identical message again (two publications total for two
commands).  For channel 2 the same holds when its topic is distinct from
channel 1's. -/
theorem command_idempotence (st : DState) (turnOn : Bool)
    (hoff : st.offline = false) (hconn : st.mqttConnected = true) :
    ((mqttCallback st st.mqttInTopic1 (if turnOn then CMD_ON else CMD_OFF)).1).l1State = turnOn
  ∧ ((mqttCallback ((mqttCallback st st.mqttInTopic1 (if turnOn then CMD_ON else CMD_OFF)).1)
        st.mqttInTopic1 (if turnOn then CMD_ON else CMD_OFF)).1).l1State = turnOn
  ∧ ((mqttCallback st st.mqttInTopic1 (if turnOn then CMD_ON else CMD_OFF)).2).length = 1
  ∧ ((mqttCallback ((mqttCallback st st.mqttInTopic1 (if turnOn then CMD_ON else CMD_OFF)).1)
        st.mqttInTopic1 (if turnOn then CMD_ON else CMD_OFF)).2).length = 1
  ∧ (mqttCallback ((mqttCallback st st.mqttInTopic1 (if turnOn then CMD_ON else CMD_OFF)).1)
        st.mqttInTopic1 (if turnOn then CMD_ON else CMD_OFF)).2
      = (mqttCallback st st.mqttInTopic1 (if turnOn then CMD_ON else CMD_OFF)).2
  ∧ (st.mqttInTopic2 ≠ st.mqttInTopic1 →
      ((mqttCallback st st.mqttInTopic2 (if turnOn then CMD_ON else CMD_OFF)).1).l2State = turnOn
      ∧ ((mqttCallback st st.mqttInTopic2 (if turnOn then CMD_ON else CMD_OFF)).2).length = 1) := by
  cases turnOn
  · have h1 : strStartsWith (cTruncate CMD_OFF) CMD_SETUP = false := by decide
    have h2 : strStartsWith (cTruncate CMD_OFF) CMD_RESET = false := by decide
    have h3 : strStartsWith (cTruncate CMD_OFF) CMD_OTA = false := by decide
    have h4 : strStartsWith (cTruncate CMD_OFF) CMD_ON = false := by decide
    have h5 : strStartsWith (cTruncate CMD_OFF) CMD_OFF = true := by decide
    refine ⟨?_, ?_, ?_, ?_, ?_, ?_⟩ <;>
      simp [mqttCallback, modeCommands, h1, h2, h3, h4, h5,
        enableL1, disableL1, enableL2, disableL2, mqttCommunicate, hoff, hconn]
    intro hne
    simp [hne]
  · have h1 : strStartsWith (cTruncate CMD_ON) CMD_SETUP = false := by decide
    have h2 : strStartsWith (cTruncate CMD_ON) CMD_RESET = false := by decide
    have h3 : strStartsWith (cTruncate CMD_ON) CMD_OTA = false := by decide
    have h4 : strStartsWith (cTruncate CMD_ON) CMD_ON = true := by decide
    have h5 : strStartsWith (cTruncate CMD_ON) CMD_OFF = false := by decide
    refine ⟨?_, ?_, ?_, ?_, ?_, ?_⟩ <;>
      simp [mqttCallback, modeCommands, h1, h2, h3, h4, h5,
        enableL1, disableL1, enableL2, disableL2, mqttCommunicate, hoff, hconn]
    intro hne
    simp [hne]

/-- C7 witness: turning channel 1 on twice at a concrete online state. -/
theorem command_idempotence_witness :
    ((mqttCallback onlineState onlineState.mqttInTopic1
        (if true then CMD_ON else CMD_OFF)).1).l1State = true
  ∧ ((mqttCallback ((mqttCallback onlineState onlineState.mqttInTopic1
          (if true then CMD_ON else CMD_OFF)).1)
        onlineState.mqttInTopic1 (if true then CMD_ON else CMD_OFF)).1).l1State = true
  ∧ ((mqttCallback onlineState onlineState.mqttInTopic1
        (if true then CMD_ON else CMD_OFF)).2).length = 1
  ∧ ((mqttCallback ((mqttCallback onlineState onlineState.mqttInTopic1
          (if true then CMD_ON else CMD_OFF)).1)
        onlineState.mqttInTopic1 (if true then CMD_ON else CMD_OFF)).2).length = 1
  ∧ (mqttCallback ((mqttCallback onlineState onlineState.mqttInTopic1
          (if true then CMD_ON else CMD_OFF)).1)
        onlineState.mqttInTopic1 (if true then CMD_ON else CMD_OFF)).2
      = (mqttCallback onlineState onlineState.mqttInTopic1
          (if true then CMD_ON else CMD_OFF)).2
  ∧ (onlineState.mqttInTopic2 ≠ onlineState.mqttInTopic1 →
      ((mqttCallback onlineState onlineState.mqttInTopic2
          (if true then CMD_ON else CMD_OFF)).1).l2State = true
      ∧ ((mqttCallback onlineState onlineState.mqttInTopic2
          (if true then CMD_ON else CMD_OFF)).2).length = 1) :=
  command_idempotence onlineState true rfl rfl

/-- C8: inbound dispatch semantics.  The mode commands `rst` / `ota` /
`set` are matched by prefix, independently of one another and of the
topic; `1` / `0` act only when the topic is exactly a channel's command
topic and then only on that channel; a payload matching no prefix leaves
the state unchanged and produces no output at all. -/
theorem dispatch_semantics (st : DState) (topic payload : String) :
    (((mqttCallback st topic payload).1).restart
        = (st.restart || strStartsWith (cTruncate payload) CMD_RESET))
  ∧ (((mqttCallback st topic payload).1).otaRunning
        = (st.otaRunning || strStartsWith (cTruncate payload) CMD_OTA))
  ∧ (((mqttCallback st topic payload).1).wifiManagerSetupRunning
        = (st.wifiManagerSetupRunning || strStartsWith (cTruncate payload) CMD_SETUP))
  ∧ (topic ≠ st.mqttInTopic1 → ((mqttCallback st topic payload).1).l1State = st.l1State)
  ∧ (topic = st.mqttInTopic1 → ((mqttCallback st topic payload).1).l2State = st.l2State)
  ∧ (topic ≠ st.mqttInTopic1 → topic ≠ st.mqttInTopic2 →
        ((mqttCallback st topic payload).1).l1State = st.l1State
      ∧ ((mqttCallback st topic payload).1).l2State = st.l2State
      ∧ (mqttCallback st topic payload).2 = [])
  ∧ (strStartsWith (cTruncate payload) CMD_ON = false →
     strStartsWith (cTruncate payload) CMD_OFF = false →
     strStartsWith (cTruncate payload) CMD_SETUP = false →
     strStartsWith (cTruncate payload) CMD_OTA = false →
     strStartsWith (cTruncate payload) CMD_RESET = false →
        mqttCallback st topic payload = (st, [])) := by
  obtain ⟨hl1, hl2, hs1, hs2, hsw, hinv, hoff, hconn, hi1, hi2, ho1, ho2⟩ :=
    modeCommands_preserved st (cTruncate payload)
  refine ⟨mqttCallback_restart st topic payload,
    mqttCallback_otaRunning st topic payload,
    mqttCallback_wifiManagerSetupRunning st topic payload, ?_, ?_, ?_, ?_⟩
  · intro hne
    simp only [mqttCallback]
    rw [hi1, hi2, if_neg hne]
    split
    · repeat' split
      all_goals simp [enableL2_fst, disableL2_fst, hl1]
    · exact hl1
  · intro hteq
    simp only [mqttCallback]
    rw [hi1, if_pos hteq]
    repeat' split
    all_goals simp [enableL1_fst, disableL1_fst, hl2]
  · intro hne1 hne2
    simp only [mqttCallback]
    rw [hi1, hi2, if_neg hne1, if_neg hne2]
    exact ⟨hl1, hl2, rfl⟩
  · intro g1 g2 g3 g4 g5
    simp only [mqttCallback, modeCommands, startWifiManager, g1, g2, g3, g4, g5]
    simp

/-- C8 witness: concrete instantiations of the conditional clauses, with
a topic matching neither channel and a payload matching no command. -/
theorem dispatch_semantics_witness :
    ((mqttCallback onlineState "nope" "zzz").1).l1State = onlineState.l1State
  ∧ ((mqttCallback onlineState onlineState.mqttInTopic1 "zzz").1).l2State
      = onlineState.l2State
  ∧ (((mqttCallback onlineState "nope" "zzz").1).l1State = onlineState.l1State
      ∧ ((mqttCallback onlineState "nope" "zzz").1).l2State = onlineState.l2State
      ∧ (mqttCallback onlineState "nope" "zzz").2 = [])
  ∧ mqttCallback onlineState "nope" "zzz" = (onlineState, []) :=
  ⟨(dispatch_semantics onlineState "nope" "zzz").2.2.2.1 (by decide),
   (dispatch_semantics onlineState onlineState.mqttInTopic1 "zzz").2.2.2.2.1 rfl,
   (dispatch_semantics onlineState "nope" "zzz").2.2.2.2.2.1 (by decide) (by decide),
   (dispatch_semantics onlineState "nope" "zzz").2.2.2.2.2.2
     (by decide) (by decide) (by decide) (by decide) (by decide)⟩

/-- C9: while the WiFi is down or the MQTT client is disconnected, the
relay operations still update `RelayState` but publish nothing; and the
reconnect path only subscribes — it never publishes — so nothing is
replayed after a successful reconnect. -/
theorem offline_drop (st : DState)
    (h : st.offline = true ∨ st.mqttConnected = false) :
    enableL1 st = ({ st with l1State := true }, [])
  ∧ disableL1 st = ({ st with l1State := false }, [])
  ∧ enableL2 st = ({ st with l2State := true }, [])
  ∧ disableL2 st = ({ st with l2State := false }, [])
  ∧ (∀ (bst : BrokerState) (now : Nat) (ok : Bool) (t1 t2 : String),
      (mqttReconnect bst now ok t1 t2).published = []) := by
  refine ⟨?_, ?_, ?_, ?_, ?_⟩
  · rcases h with h | h <;> simp [enableL1, mqttCommunicate, h]
  · rcases h with h | h <;> simp [disableL1, mqttCommunicate, h]
  · rcases h with h | h <;> simp [enableL2, mqttCommunicate, h]
  · rcases h with h | h <;> simp [disableL2, mqttCommunicate, h]
  · intro bst now ok t1 t2
    simp only [mqttReconnect]
    repeat' split
    all_goals rfl

/-- C9 witness: at the boot state (offline), energizing relay 1 changes
the state and publishes nothing, and a concrete reconnect publishes
nothing. -/
theorem offline_drop_witness :
    enableL1 initState = ({ initState with l1State := true }, [])
  ∧ (mqttReconnect brokerInit 5 true "a" "b").published = [] :=
  ⟨(offline_drop initState (Or.inl rfl)).1,
   (offline_drop initState (Or.inl rfl)).2.2.2.2 brokerInit 5 true "a" "b"⟩

/-- C10: when both channels are configured with the same command topic, an
inbound `1` (or `0`) on that topic energizes (de-energizes) only relay 1
and publishes only channel 1's status; relay 2 is untouched, because the
`strcmp` chain is an exclusive if/else-if and channel 1 matches first. -/
theorem same_topic_channel1_wins (st : DState)
    (heq : st.mqttInTopic1 = st.mqttInTopic2)
    (hoff : st.offline = false) (hconn : st.mqttConnected = true) :
    (((mqttCallback st st.mqttInTopic1 CMD_ON).1).l1State = true
      ∧ ((mqttCallback st st.mqttInTopic1 CMD_ON).1).l2State = st.l2State
      ∧ ((mqttCallback st st.mqttInTopic1 CMD_ON).2).map Prod.fst = [st.mqttOutTopic1])
  ∧ (((mqttCallback st st.mqttInTopic1 CMD_OFF).1).l1State = false
      ∧ ((mqttCallback st st.mqttInTopic1 CMD_OFF).1).l2State = st.l2State
      ∧ ((mqttCallback st st.mqttInTopic1 CMD_OFF).2).map Prod.fst = [st.mqttOutTopic1]) := by
  have h1 : strStartsWith (cTruncate CMD_ON) CMD_SETUP = false := by decide
  have h2 : strStartsWith (cTruncate CMD_ON) CMD_RESET = false := by decide
  have h3 : strStartsWith (cTruncate CMD_ON) CMD_OTA = false := by decide
  have h4 : strStartsWith (cTruncate CMD_ON) CMD_ON = true := by decide
  have h5 : strStartsWith (cTruncate CMD_ON) CMD_OFF = false := by decide
  have g1 : strStartsWith (cTruncate CMD_OFF) CMD_SETUP = false := by decide
  have g2 : strStartsWith (cTruncate CMD_OFF) CMD_RESET = false := by decide
  have g3 : strStartsWith (cTruncate CMD_OFF) CMD_OTA = false := by decide
  have g4 : strStartsWith (cTruncate CMD_OFF) CMD_ON = false := by decide
  have g5 : strStartsWith (cTruncate CMD_OFF) CMD_OFF = true := by decide
  constructor <;> refine ⟨?_, ?_, ?_⟩ <;>
    simp [mqttCallback, modeCommands, h1, h2, h3, h4, h5, g1, g2, g3, g4, g5,
      enableL1, disableL1, mqttCommunicate, hoff, hconn]

/-- C10 witness: a concrete online state whose two command topics are the
same string. -/
theorem same_topic_channel1_wins_witness :
    (((mqttCallback
          { onlineState with mqttInTopic2 := "ibnhouse/light/kitchen/cmd1" }
          { onlineState with mqttInTopic2 := "ibnhouse/light/kitchen/cmd1" }.mqttInTopic1
          CMD_ON).1).l1State = true
      ∧ ((mqttCallback
          { onlineState with mqttInTopic2 := "ibnhouse/light/kitchen/cmd1" }
          { onlineState with mqttInTopic2 := "ibnhouse/light/kitchen/cmd1" }.mqttInTopic1
          CMD_ON).1).l2State
          = { onlineState with mqttInTopic2 := "ibnhouse/light/kitchen/cmd1" }.l2State
      ∧ ((mqttCallback
          { onlineState with mqttInTopic2 := "ibnhouse/light/kitchen/cmd1" }
          { onlineState with mqttInTopic2 := "ibnhouse/light/kitchen/cmd1" }.mqttInTopic1
          CMD_ON).2).map Prod.fst
          = [{ onlineState with mqttInTopic2 := "ibnhouse/light/kitchen/cmd1" }.mqttOutTopic1])
  ∧ (((mqttCallback
          { onlineState with mqttInTopic2 := "ibnhouse/light/kitchen/cmd1" }
          { onlineState with mqttInTopic2 := "ibnhouse/light/kitchen/cmd1" }.mqttInTopic1
          CMD_OFF).1).l1State = false
      ∧ ((mqttCallback
          { onlineState with mqttInTopic2 := "ibnhouse/light/kitchen/cmd1" }
          { onlineState with mqttInTopic2 := "ibnhouse/light/kitchen/cmd1" }.mqttInTopic1
          CMD_OFF).1).l2State
          = { onlineState with mqttInTopic2 := "ibnhouse/light/kitchen/cmd1" }.l2State
      ∧ ((mqttCallback
          { onlineState with mqttInTopic2 := "ibnhouse/light/kitchen/cmd1" }
          { onlineState with mqttInTopic2 := "ibnhouse/light/kitchen/cmd1" }.mqttInTopic1
          CMD_OFF).2).map Prod.fst
          = [{ onlineState with mqttInTopic2 := "ibnhouse/light/kitchen/cmd1" }.mqttOutTopic1]) :=
  same_topic_channel1_wins
    { onlineState with mqttInTopic2 := "ibnhouse/light/kitchen/cmd1" } rfl rfl rfl

end Detritus
